import Mathlib

/-!
Verification of the document-annotation plugin (src/main.ts, src/DocumentNotesView.ts).

The plugin stores free-form notes per document, optionally anchored to a text
selection, and persists them as one JSON record per document under the
`document-notes` folder of the host vault.

Modelling conventions (shallow embedding):
* The host vault adapter (`this.app.vault.adapter`) and the JavaScript JSON
  codec (`JSON.stringify` / `JSON.parse`) are external collaborators, not code
  of this repository.  `JSON.parse` inverts `JSON.stringify` on the record
  values this program writes, so persisted records are modelled at the parsed
  value level: the adapter store maps a file path to `Option DocumentNotes`,
  where `some dn` models a file whose text parses to `dn` and `none` models a
  file whose text does not parse (a corrupt record).  A missing key models a
  missing file (`adapter.read` throws).
* A JavaScript function that may throw is modelled in `Except String`;
  a `try { ... } catch { ... }` is modelled by matching on that result.
* `Date.now()` is an ambient input and becomes an explicit `Nat` parameter.
* Timestamps, line numbers and column offsets are natural numbers, as every
  value the program stores in them is a non-negative integer.
-/

/-- Cursor position as used by the editor: `{ line, ch }` (main.ts:156-157). -/
structure Pos where
  line : Nat
  ch : Nat
deriving DecidableEq, Repr

/-- The `Note` interface (main.ts:4-17, DocumentNotesView.ts:6-19).  The three
anchor fields are optional. -/
structure Note where
  id : String
  content : String
  createdAt : Nat
  selectedText : Option String := none
  selectionStart : Option Pos := none
  selectionEnd : Option Pos := none
deriving DecidableEq, Repr

/-- The `DocumentNotes` persisted record shape (main.ts:19-22). -/
structure DocumentNotes where
  documentPath : String
  notes : List Note
deriving DecidableEq, Repr

/-- The vault adapter's file store, restricted to the notes folder: an
association list from file path to stored record.  `some dn` is a file whose
text `JSON.parse`s to `dn`; `none` is a file whose text does not parse. -/
abbrev Store : Type := List (String × Option DocumentNotes)

/-- Create-or-overwrite a record, as `adapter.write` does (main.ts:139). -/
def storeWrite (key : String) (val : Option DocumentNotes) : Store → Store
  | [] => [(key, val)]
  | (k, v) :: rest =>
    if k = key then (key, val) :: rest else (k, v) :: storeWrite key val rest

/-- Look up a record; `none` models `adapter.read` throwing because the file
is missing (main.ts:116). -/
def storeRead (key : String) : Store → Option (Option DocumentNotes)
  | [] => none
  | (k, v) :: rest => if k = key then some v else storeRead key rest

/-- The plugin state that the NoteStore half touches: the remembered
`originalDocumentPath` field (main.ts:26) and the adapter's file store. -/
structure PluginState where
  originalDocumentPath : String
  store : Store
deriving DecidableEq, Repr

/-- The `notesFolder` constant (main.ts:25). -/
def notesFolder : String := "document-notes"

/-- Storage-key derivation `activeFile.path.replace(/[\/\\:]/g, '_')`
(main.ts:112, main.ts:131): every path separator or drive separator becomes
an underscore. -/
def fileId (path : String) : String :=
  String.mk (path.data.map (fun c => if c = '/' ∨ c = '\\' ∨ c = ':' then '_' else c))

/-- The record's path `` `${this.notesFolder}/${fileId}.json` `` (main.ts:113,
main.ts:138). -/
def notePath (path : String) : String :=
  notesFolder ++ "/" ++ fileId path ++ ".json"

/-- The body of `saveNotes` (main.ts:125-140) with its possible write failure
made explicit.  `activeFile` is `getActiveFile()`; `writeError = some e`
models `adapter.write` rejecting with error `e`.  The source has no
try/catch, so in that case the exception leaves `saveNotes` as `.error e`;
note that `originalDocumentPath` has already been assigned (main.ts:129)
before the write is attempted.  With no active file the function returns at
once (main.ts:127). -/
def saveNotesE (activeFile : Option String) (writeError : Option String)
    (st : PluginState) (notes : List Note) : PluginState × Except String Unit :=
  match activeFile with
  | none => (st, Except.ok ())
  | some path =>
    let st1 : PluginState := { st with originalDocumentPath := path }
    match writeError with
    | some e => (st1, Except.error e)
    | none =>
      ({ st1 with
          store := storeWrite (notePath path) (some { documentPath := path, notes := notes }) st1.store },
       Except.ok ())

/-- The state reached by a `saveNotes` call whose write succeeds
(main.ts:125-140). -/
def saveNotes (activeFile : Option String) (st : PluginState)
    (notes : List Note) : PluginState :=
  (saveNotesE activeFile none st notes).1

/-- The body of `getNotesForCurrentFile` (main.ts:108-123).  Returns the
updated state and `Note[] | null`.  The `try`/`catch` collapses both a
missing file (`adapter.read` throws) and an unparseable file (`JSON.parse`
throws) to `null`; on success the remembered `originalDocumentPath` is set
from the record and its notes are returned. -/
def getNotesForCurrentFile (activeFile : Option String) (st : PluginState) :
    PluginState × Option (List Note) :=
  match activeFile with
  | none => (st, none)
  | some path =>
    match storeRead (notePath path) st.store with
    | none => (st, none)
    | some none => (st, none)
    | some (some documentNotes) =>
      ({ st with originalDocumentPath := documentNotes.documentPath },
       some documentNotes.notes)

/-- The note built by `createNewNote` (DocumentNotesView.ts:60-67).  The
source calls `Date.now()` twice — once for `id`, once for `createdAt` — so
the two readings are separate parameters `tId` and `tCreated`. -/
def newNote (tId tCreated : Nat) (selectedText : Option String)
    (selectionStart selectionEnd : Option Pos) : Note :=
  { id := Nat.repr tId
    content := ""
    createdAt := tCreated
    selectedText := selectedText
    selectionStart := selectionStart
    selectionEnd := selectionEnd }

/-- Effect of `createNewNote` on the working set `this.notes`
(DocumentNotesView.ts:55-72): build the note and `unshift` it. -/
def createNewNote (tId tCreated : Nat) (selectedText : Option String)
    (selectionStart selectionEnd : Option Pos) (notes : List Note) : List Note :=
  newNote tId tCreated selectedText selectionStart selectionEnd :: notes

/-- The command `createNoteFromSelection` (main.ts:146-162): when the editor
selection is non-empty (`if (selectedText)`) and a panel view exists, it
calls `createNewNote` with the captured text and the `from`/`to` cursor
positions; otherwise nothing happens. -/
def createNoteFromSelection (selection : String) (viewOpen : Bool)
    (cursorStart cursorEnd : Pos) (tId tCreated : Nat)
    (notes : List Note) : List Note :=
  if selection = "" then notes
  else if viewOpen then
    createNewNote tId tCreated (some selection)
      (some { line := cursorStart.line, ch := cursorStart.ch })
      (some { line := cursorEnd.line, ch := cursorEnd.ch })
      notes
  else notes

/-- Effect of the per-note text area's `onChange` handler
(DocumentNotesView.ts:108-112) on the working set: the handler captured the
note rendered at position `i`, and mutates that object in place —
`note.content = value; note.createdAt = Date.now()` — without re-sorting or
re-rendering. -/
def editNoteAt (i : Nat) (value : String) (now : Nat) : List Note → List Note
  | [] => []
  | n :: rest =>
    match i with
    | 0 => { n with content := value, createdAt := now } :: rest
    | j + 1 => n :: editNoteAt j value now rest

/-- Effect of the delete button's handler (DocumentNotesView.ts:200-206):
`this.notes = this.notes.filter(n => n.id !== note.id)` for the rendered
note's id. -/
def deleteNote (noteId : String) (notes : List Note) : List Note :=
  notes.filter (fun n => n.id != noteId)

/-- Stable insertion into a list kept non-increasing in `createdAt`: the new
note goes in front of the first note with a strictly smaller `createdAt`. -/
def insertNoteDesc (n : Note) : List Note → List Note
  | [] => [n]
  | m :: rest =>
    if n.createdAt ≤ m.createdAt then m :: insertNoteDesc n rest
    else n :: m :: rest

/-- The sort `notes.sort((a, b) => b.createdAt - a.createdAt)`
(DocumentNotesView.ts:213).  ECMAScript `Array.prototype.sort` is a stable
sort and this comparator orders by `createdAt` descending, so it is modelled
as a stable insertion sort on that key. -/
def sortNotes : List Note → List Note
  | [] => []
  | n :: rest => insertNoteDesc n (sortNotes rest)

/-- The body of `refresh` (DocumentNotesView.ts:210-219): load via
`getNotesForCurrentFile`; a `Note[]` result is sorted most-recent-first and
becomes the working set, a `null` result resets the working set to empty. -/
def refreshStep (loaded : Option (List Note)) : List Note :=
  match loaded with
  | some ns => sortNotes ns
  | none => []

/-- One user-visible operation on the working set of the panel view. -/
inductive ViewOp where
  | refreshOp (loaded : Option (List Note))
  | createOp (tId tCreated : Nat) (selectedText : Option String)
      (selectionStart selectionEnd : Option Pos)
  | editOp (i : Nat) (value : String) (now : Nat)
  | deleteOp (noteId : String)
deriving DecidableEq, Repr

/-- Transition of the working set `this.notes` under one operation. -/
def stepView (op : ViewOp) (notes : List Note) : List Note :=
  match op with
  | ViewOp.refreshOp loaded => refreshStep loaded
  | ViewOp.createOp tId tCreated st ss se => createNewNote tId tCreated st ss se notes
  | ViewOp.editOp i value now => editNoteAt i value now notes
  | ViewOp.deleteOp noteId => deleteNote noteId notes

/-- Transition of the working set under a sequence of operations. -/
def applyOps (ops : List ViewOp) (notes : List Note) : List Note :=
  match ops with
  | [] => notes
  | op :: rest => applyOps rest (stepView op notes)

/-- The working set is ordered non-increasing in `createdAt`
(most-recent-first). -/
def sortedDesc (notes : List Note) : Prop :=
  List.Pairwise (fun a b => b.createdAt ≤ a.createdAt) notes

instance : DecidablePred sortedDesc := fun l => List.instDecidablePairwise l

/-- Operations that do not put an out-of-order element into a sorted working
set: a refresh (it re-sorts), a create whose creation time is at least every
`createdAt` already present (true of a monotone wall clock reading
`Date.now()`), and a delete.  An in-place edit is excluded. -/
def orderSafe (op : ViewOp) (notes : List Note) : Bool :=
  match op with
  | ViewOp.refreshOp _ => true
  | ViewOp.createOp _ tCreated _ _ _ => notes.all (fun n => n.createdAt ≤ tCreated)
  | ViewOp.editOp _ _ _ => false
  | ViewOp.deleteOp _ => true

/-- Every operation of the trace is order-safe for the working set it acts
on. -/
def safeTrace (ops : List ViewOp) (notes : List Note) : Bool :=
  match ops with
  | [] => true
  | op :: rest => orderSafe op notes && safeTrace rest (stepView op notes)

/-- All-or-nothing anchor invariant on one note: either no anchor field is
present, or all three are. -/
def anchorConsistent (n : Note) : Prop :=
  (n.selectedText = none ∧ n.selectionStart = none ∧ n.selectionEnd = none) ∨
  (n.selectedText ≠ none ∧ n.selectionStart ≠ none ∧ n.selectionEnd ≠ none)

/-- An open markdown editor handle: the only capability the navigation
handler uses is `lineCount()` plus cursor placement (DocumentNotesView.ts:174,
181-188). -/
structure EditorView where
  lineCount : Nat
deriving DecidableEq, Repr

/-- A markdown view, whose `editor` property the handler checks for
(DocumentNotesView.ts:167-171). -/
structure MdView where
  editor : Option EditorView
deriving DecidableEq, Repr

/-- What one run of the polling loop (DocumentNotesView.ts:152-160)
observably does: the view it ended with, how many times it called
`getActiveViewOfType`, and how many 100 ms sleeps it performed. -/
structure PollOutcome where
  view : Option MdView
  polls : Nat
  sleeps : Nat
deriving DecidableEq, Repr

/-- The loop `while (!view && attempts < 10)` (DocumentNotesView.ts:153-160).
`poll a` is what `getActiveViewOfType(MarkdownView)` returns on the attempt
with counter value `a`; each failed attempt sleeps 100 ms and increments the
counter.  The guard `attempts < 10` is carried as the fuel
`fuel = 10 - attempts`, which makes the loop's termination structural. -/
def waitLoop (poll : Nat → Option MdView) : Nat → Nat → PollOutcome
  | _, 0 => { view := none, polls := 0, sleeps := 0 }
  | attempts, fuel + 1 =>
    match poll attempts with
    | some v => { view := some v, polls := 1, sleeps := 0 }
    | none =>
      let rest := waitLoop poll (attempts + 1) fuel
      { view := rest.view, polls := rest.polls + 1, sleeps := rest.sleeps + 1 }

/-- The polling loop as entered by the handler: `attempts = 0`, guard
bound 10. -/
def waitForView (poll : Nat → Option MdView) : PollOutcome :=
  waitLoop poll 0 10

/-- The host-side context the goto-selection handler consults. -/
structure NavEnv where
  currentFilePath : String
  fileExists : String → Bool
  leafAvailable : Bool
  poll : Nat → Option MdView

/-- Observable outcome of the goto-selection handler, one constructor per
early-return `Notice` plus the successful navigation
(DocumentNotesView.ts:121-196). -/
inductive NavOutcome where
  | incompleteInfo
  | noPath
  | fileNotFound
  | noLeaf
  | editorTimeout
  | editorMissing
  | outOfRange
  | navigated (cursor selFrom selTo : Pos)
deriving DecidableEq, Repr

/-- The goto-selection button handler (DocumentNotesView.ts:121-196), guard
for guard: completeness of the three anchor fields — where the guard
`!note.selectionStart || !note.selectionEnd || !note.selectedText`
(DocumentNotesView.ts:124) also treats an empty `selectedText` string as
missing, since `!""` is true in JavaScript — then a non-empty remembered
path (`getCurrentFilePath`, main.ts:164-166), the target file resolving
(`getFileByPath`, main.ts:168-176), a workspace leaf, the bounded poll for
the markdown view, the view's `editor`, and finally the bounds check
`note.selectionStart.line >= editor.lineCount()` before the cursor is set to
`selectionStart` and the selection to `selectionStart..selectionEnd`. -/
def gotoSelection (note : Note) (env : NavEnv) : NavOutcome :=
  match note.selectionStart, note.selectionEnd, note.selectedText with
  | some selStart, some selEnd, some txt =>
    if txt = "" then NavOutcome.incompleteInfo
    else
    let targetPath := env.currentFilePath
    if targetPath = "" then NavOutcome.noPath
    else if env.fileExists targetPath then
      if env.leafAvailable then
        match (waitForView env.poll).view with
        | none => NavOutcome.editorTimeout
        | some view =>
          match view.editor with
          | none => NavOutcome.editorMissing
          | some editor =>
            if selStart.line ≥ editor.lineCount then NavOutcome.outOfRange
            else NavOutcome.navigated selStart selStart selEnd
      else NavOutcome.noLeaf
    else NavOutcome.fileNotFound
  | _, _, _ => NavOutcome.incompleteInfo

/-- A concrete anchored note used to instantiate the navigation theorems. -/
def cNote : Note :=
  { id := "1", content := "", createdAt := 0
    selectedText := some "Hello"
    selectionStart := some { line := 0, ch := 0 }
    selectionEnd := some { line := 0, ch := 5 } }

/-- A concrete navigation environment in which every precondition holds and
the editor reports 3 lines. -/
def cEnv : NavEnv :=
  { currentFilePath := "notes/a.md"
    fileExists := fun _ => true
    leafAvailable := true
    poll := fun _ => some { editor := some { lineCount := 3 } } }

/-- A concrete navigation environment in which the editor never becomes
available. -/
def cEnvTimeout : NavEnv :=
  { currentFilePath := "notes/a.md"
    fileExists := fun _ => true
    leafAvailable := true
    poll := fun _ => none }

/-- Concrete notes with distinct ids and descending timestamps. -/
def cNoteA : Note := { id := "a", content := "", createdAt := 10 }

/-- Second concrete note with a distinct id and an older timestamp. -/
def cNoteB : Note := { id := "b", content := "", createdAt := 5 }

/-- Two concrete notes sharing the id "5", as produced by two creations in
the same millisecond. -/
def cDup1 : Note := { id := "5", content := "first", createdAt := 5 }

/-- Second note sharing the id "5". -/
def cDup2 : Note := { id := "5", content := "second", createdAt := 6 }

/-- A concrete plugin state in which the record for "a.md" exists but does
not parse. -/
def cCorruptState : PluginState :=
  { originalDocumentPath := "", store := [(notePath "a.md", none)] }

/-! ### Helper lemmas -/

/-- Reading back the key just written returns exactly the written record. -/
theorem storeRead_storeWrite_self (key : String) (val : Option DocumentNotes)
    (s : Store) : storeRead key (storeWrite key val s) = some val := by
  induction s with
  | nil => simp [storeWrite, storeRead]
  | cons kv rest ih =>
    obtain ⟨k, v⟩ := kv
    by_cases hk : k = key
    · simp [storeWrite, storeRead, hk]
    · simp [storeWrite, storeRead, hk, ih]

/-- Membership in a stable descending insertion. -/
theorem mem_insertNoteDesc {m n : Note} {l : List Note} :
    m ∈ insertNoteDesc n l ↔ m = n ∨ m ∈ l := by
  induction l with
  | nil => simp [insertNoteDesc]
  | cons x rest ih =>
    by_cases h : n.createdAt ≤ x.createdAt
    · simp only [insertNoteDesc, if_pos h, List.mem_cons, ih]
      tauto
    · simp only [insertNoteDesc, if_neg h, List.mem_cons]

/-- Stable descending insertion preserves the non-increasing order. -/
theorem insertNoteDesc_sorted {n : Note} {l : List Note} (h : sortedDesc l) :
    sortedDesc (insertNoteDesc n l) := by
  induction l with
  | nil => simp [insertNoteDesc, sortedDesc]
  | cons x rest ih =>
    rw [sortedDesc, List.pairwise_cons] at h
    obtain ⟨hx, hrest⟩ := h
    by_cases hle : n.createdAt ≤ x.createdAt
    · rw [insertNoteDesc, if_pos hle, sortedDesc, List.pairwise_cons]
      refine ⟨?_, ih hrest⟩
      intro m hm
      rcases mem_insertNoteDesc.mp hm with hmn | hmem
      · exact hmn ▸ hle
      · exact hx m hmem
    · rw [insertNoteDesc, if_neg hle, sortedDesc, List.pairwise_cons]
      refine ⟨?_, ?_⟩
      · intro m hm
        rcases List.mem_cons.mp hm with hmx | hmem
        · exact hmx ▸ Nat.le_of_lt (Nat.lt_of_not_le hle)
        · exact Nat.le_trans (hx m hmem) (Nat.le_of_lt (Nat.lt_of_not_le hle))
      · exact List.pairwise_cons.mpr ⟨hx, hrest⟩

/-- The refresh sort always yields a non-increasing working set. -/
theorem sortNotes_sorted (l : List Note) : sortedDesc (sortNotes l) := by
  induction l with
  | nil => simp [sortNotes, sortedDesc]
  | cons n rest ih => exact insertNoteDesc_sorted ih

/-- The polling loop calls the poll at most `fuel` times. -/
theorem waitLoop_polls_le (poll : Nat → Option MdView) :
    ∀ (fuel attempts : Nat), (waitLoop poll attempts fuel).polls ≤ fuel := by
  intro fuel
  induction fuel with
  | zero => intro attempts; simp [waitLoop]
  | succ k ih =>
    intro attempts
    rw [waitLoop]
    cases poll attempts with
    | some v => simp
    | none => simpa using Nat.succ_le_succ (ih (attempts + 1))

/-- The polling loop sleeps at most `fuel` times. -/
theorem waitLoop_sleeps_le (poll : Nat → Option MdView) :
    ∀ (fuel attempts : Nat), (waitLoop poll attempts fuel).sleeps ≤ fuel := by
  intro fuel
  induction fuel with
  | zero => intro attempts; simp [waitLoop]
  | succ k ih =>
    intro attempts
    rw [waitLoop]
    cases poll attempts with
    | some v => simp
    | none => simpa using Nat.succ_le_succ (ih (attempts + 1))

/-- If every polled attempt in the window comes back empty, the loop ends
with no view. -/
theorem waitLoop_view_none (poll : Nat → Option MdView) :
    ∀ (fuel attempts : Nat),
      (∀ i, attempts ≤ i → i < attempts + fuel → poll i = none) →
      (waitLoop poll attempts fuel).view = none := by
  intro fuel
  induction fuel with
  | zero => intro attempts _; simp [waitLoop]
  | succ k ih =>
    intro attempts hnone
    have h0 : poll attempts = none :=
      hnone attempts (Nat.le_refl _) (Nat.lt_of_lt_of_le (Nat.lt_succ_self _)
        (by omega))
    rw [waitLoop, h0]
    have := ih (attempts + 1) (fun i h1 h2 => hnone i (by omega) (by omega))
    simpa using this

/-! ### Claim theorems -/

/-- C1: for every document identity, saving a note sequence and then loading
with the same document still active and no intervening writes returns
exactly the saved collection. -/
theorem claim_C1_save_load_roundtrip :
    ∀ (path : String) (st : PluginState) (notes : List Note),
      (getNotesForCurrentFile (some path) (saveNotes (some path) st notes)).2 =
        some notes := by
  intro path st notes
  simp [saveNotes, saveNotesE, getNotesForCurrentFile, storeRead_storeWrite_self]

/-- C10: with no active document, a save writes nothing, leaves the
remembered original document path unchanged, and reports no error. -/
theorem claim_C10_save_without_active_document :
    ∀ (writeError : Option String) (st : PluginState) (notes : List Note),
      saveNotesE none writeError st notes = (st, Except.ok ()) := by
  intro writeError st notes
  rfl

/-- C8 counterexample: a failing write makes saveNotes end in a propagated
exception rather than a returned result, refuting the claim that neither
load nor save propagates a storage exception. -/
theorem claim_C8_counterexample :
    (saveNotesE (some "a.md") (some "disk full") cCorruptState []).2 =
        Except.error "disk full" ∧
      (saveNotesE (some "a.md") (some "disk full") cCorruptState []).2 ≠
        Except.ok () := by
  refine ⟨rfl, ?_⟩
  intro h
  exact Except.noConfusion h

/-- C8 amended: load never propagates a storage exception — a missing record
and an unparseable record both collapse to a not-found result — but save
performs its write without a catch, so a write failure propagates as an
exception to the caller of saveNotes instead of being returned as a
result. -/
theorem claim_C8_error_channels :
    ∀ (path errMsg : String) (st : PluginState) (notes : List Note),
      getNotesForCurrentFile none st = (st, none) ∧
      (storeRead (notePath path) st.store = none ∨
          storeRead (notePath path) st.store = some none →
        getNotesForCurrentFile (some path) st = (st, none)) ∧
      (saveNotesE (some path) (some errMsg) st notes).2 = Except.error errMsg := by
  intro path errMsg st notes
  refine ⟨rfl, ?_, rfl⟩
  intro h
  rcases h with h | h <;> simp [getNotesForCurrentFile, h]

/-- C8 witness: the amended statement evaluated on a concrete corrupt
store. -/
theorem claim_C8_error_channels_witness :
    getNotesForCurrentFile (some "a.md") cCorruptState = (cCorruptState, none) ∧
      (saveNotesE (some "a.md") (some "disk full") cCorruptState []).2 =
        Except.error "disk full" :=
  ⟨(claim_C8_error_channels "a.md" "disk full" cCorruptState []).2.1
      (Or.inr (by decide)),
   (claim_C8_error_channels "a.md" "disk full" cCorruptState []).2.2⟩

/-- C9: the wait for the editor polls at most 10 times, sleeps (100 ms each)
at most 10 times, ends with no view when the editor never becomes available
in the window, and in that case the navigation handler — reached with a
complete anchor (non-empty selected text), a located document and a leaf —
fails with the editor-unavailable outcome.  The loop is a total function,
so it always terminates. -/
theorem claim_C9_bounded_poll :
    ∀ (poll : Nat → Option MdView) (note : Note) (env : NavEnv) (s e : Pos)
      (txt : String),
      (waitForView poll).polls ≤ 10 ∧
      (waitForView poll).sleeps ≤ 10 ∧
      ((∀ i, i < 10 → poll i = none) → (waitForView poll).view = none) ∧
      (note.selectionStart = some s → note.selectionEnd = some e →
        note.selectedText = some txt → txt ≠ "" → env.currentFilePath ≠ "" →
        env.fileExists env.currentFilePath = true → env.leafAvailable = true →
        (∀ i, i < 10 → env.poll i = none) →
        gotoSelection note env = NavOutcome.editorTimeout) := by
  intro poll note env s e txt
  refine ⟨waitLoop_polls_le poll 10 0, waitLoop_sleeps_le poll 10 0, ?_, ?_⟩
  · intro hnone
    exact waitLoop_view_none poll 10 0 (fun i _ h2 => hnone i (by omega))
  · intro hss hse hst htxt hpath hfe hleaf hnone
    have hview : (waitForView env.poll).view = none :=
      waitLoop_view_none env.poll 10 0 (fun i _ h2 => hnone i (by omega))
    simp [gotoSelection, hss, hse, hst, htxt, hpath, hfe, hleaf, hview]

/-- C9 witness: the bounded poll evaluated with an editor that never becomes
available. -/
theorem claim_C9_bounded_poll_witness :
    (waitForView (fun _ => none)).polls ≤ 10 ∧
      (waitForView (fun _ => none)).view = none ∧
      gotoSelection cNote cEnvTimeout = NavOutcome.editorTimeout :=
  ⟨(claim_C9_bounded_poll (fun _ => none) cNote cEnvTimeout
      { line := 0, ch := 0 } { line := 0, ch := 5 } "Hello").1,
   (claim_C9_bounded_poll (fun _ => none) cNote cEnvTimeout
      { line := 0, ch := 0 } { line := 0, ch := 5 } "Hello").2.2.1
      (fun i _ => rfl),
   (claim_C9_bounded_poll (fun _ => none) cNote cEnvTimeout
      { line := 0, ch := 0 } { line := 0, ch := 5 } "Hello").2.2.2
      rfl rfl rfl (by decide) (by decide) rfl rfl (fun i _ => rfl)⟩

/-- C4: with a complete anchor (non-empty selected text and both positions
present), a located document and an available editor, navigation fails with
the out-of-range outcome exactly when the anchor's start line is at least
the document's current line count, and otherwise places the cursor at the
stored start and selects the stored range. -/
theorem claim_C4_anchor_bounds :
    ∀ (note : Note) (env : NavEnv) (s e : Pos) (txt : String) (v : MdView)
      (ed : EditorView),
      note.selectionStart = some s → note.selectionEnd = some e →
      note.selectedText = some txt → txt ≠ "" → env.currentFilePath ≠ "" →
      env.fileExists env.currentFilePath = true → env.leafAvailable = true →
      (waitForView env.poll).view = some v → v.editor = some ed →
      ((gotoSelection note env = NavOutcome.outOfRange ↔ ed.lineCount ≤ s.line) ∧
        (s.line < ed.lineCount →
          gotoSelection note env = NavOutcome.navigated s s e)) := by
  intro note env s e txt v ed hss hse hst htxt hpath hfe hleaf hview hed
  by_cases hge : ed.lineCount ≤ s.line
  · constructor
    · simp [gotoSelection, hss, hse, hst, htxt, hpath, hfe, hleaf, hview, hed, hge]
    · intro hlt
      omega
  · constructor
    · simp [gotoSelection, hss, hse, hst, htxt, hpath, hfe, hleaf, hview, hed, hge]
    · intro hlt
      simp [gotoSelection, hss, hse, hst, htxt, hpath, hfe, hleaf, hview, hed, hge]

/-- C4 witness: the bounds check evaluated on a concrete 3-line document and
an anchor at line 0. -/
theorem claim_C4_anchor_bounds_witness :
    (gotoSelection cNote cEnv = NavOutcome.outOfRange ↔ (3 : Nat) ≤ 0) ∧
      ((0 : Nat) < 3 →
        gotoSelection cNote cEnv =
          NavOutcome.navigated { line := 0, ch := 0 } { line := 0, ch := 0 }
            { line := 0, ch := 5 }) :=
  claim_C4_anchor_bounds cNote cEnv { line := 0, ch := 0 } { line := 0, ch := 5 }
    "Hello" { editor := some { lineCount := 3 } } { lineCount := 3 }
    rfl rfl rfl (by decide) (by decide) rfl rfl rfl rfl

/-- C5 counterexample: when the working set contains two notes sharing an
id, deleting that id removes both entries, not exactly one. -/
theorem claim_C5_counterexample :
    ("5" ∈ [cDup1, cDup2].map Note.id) ∧
      deleteNote "5" [cDup1, cDup2] = [] ∧
      [cDup1, cDup2].length - 1 ≠ (deleteNote "5" [cDup1, cDup2]).length := by
  decide

/-- C5 amended: when the ids in the working set are pairwise distinct,
deleting a present id removes exactly that one entry and leaves every other
note unchanged in place, and deleting an absent id leaves the working set
unchanged; with duplicate ids the delete removes every entry bearing the
id. -/
theorem claim_C5_delete_frame :
    ∀ (nid : String) (notes : List Note),
      (notes.map Note.id).Nodup →
      ((nid ∈ notes.map Note.id →
          ∃ pre post n, notes = pre ++ n :: post ∧ n.id = nid ∧
            deleteNote nid notes = pre ++ post) ∧
        (nid ∉ notes.map Note.id → deleteNote nid notes = notes)) := by
  intro nid notes hnd
  induction notes with
  | nil =>
    refine ⟨?_, ?_⟩
    · intro h
      simp at h
    · intro _
      rfl
  | cons m rest ih =>
    simp only [List.map_cons, List.nodup_cons] at hnd
    obtain ⟨hm, hrest⟩ := hnd
    obtain ⟨ihPresent, ihAbsent⟩ := ih hrest
    refine ⟨?_, ?_⟩
    · intro hmem
      rcases List.mem_cons.mp hmem with heq | hmem2
      · refine ⟨[], rest, m, by simp, heq.symm, ?_⟩
        simp only [deleteNote, List.filter_cons]
        have hfalse : (m.id != nid) = false := by
          simp [heq]
        rw [hfalse]
        simp only [List.nil_append]
        apply List.filter_eq_self.mpr
        intro a ha
        simp only [bne_iff_ne, ne_eq]
        intro hcontr
        exact hm (heq ▸ hcontr ▸ List.mem_map_of_mem Note.id ha)
      · have hne : m.id ≠ nid := by
          intro hcontr
          exact hm (hcontr ▸ hmem2)
        obtain ⟨pre, post, n, hsplit, hnid, hdel⟩ := ihPresent hmem2
        refine ⟨m :: pre, post, n, by simp [hsplit], hnid, ?_⟩
        simp only [deleteNote, List.filter_cons]
        have htrue : (m.id != nid) = true := by
          simp [hne]
        rw [htrue]
        simpa [deleteNote] using hdel
    · intro habs
      simp only [List.map_cons, List.mem_cons, not_or] at habs
      obtain ⟨hne, habs2⟩ := habs
      simp only [deleteNote, List.filter_cons]
      have htrue : (m.id != nid) = true := by
        simp only [bne_iff_ne, ne_eq]
        intro hcontr
        exact hne hcontr.symm
      rw [htrue]
      have := ihAbsent habs2
      simpa [deleteNote] using this

/-- C5 witness: the delete frame condition evaluated on two concrete notes
with distinct ids. -/
theorem claim_C5_delete_frame_witness :
    (("a" ∈ [cNoteA, cNoteB].map Note.id →
        ∃ pre post n, [cNoteA, cNoteB] = pre ++ n :: post ∧ n.id = "a" ∧
          deleteNote "a" [cNoteA, cNoteB] = pre ++ post) ∧
      ("a" ∉ [cNoteA, cNoteB].map Note.id →
        deleteNote "a" [cNoteA, cNoteB] = [cNoteA, cNoteB])) :=
  claim_C5_delete_frame "a" [cNoteA, cNoteB] (by decide)

/-- C6: a note created without a selection has none of the three anchor
fields, a note created from a non-empty selection has all three populated
with the exact captured text and range, and both satisfy the all-or-nothing
anchor invariant. -/
theorem claim_C6_anchor_all_or_nothing :
    ∀ (tId tCreated : Nat) (notes : List Note) (sel : String) (cs ce : Pos),
      (createNewNote tId tCreated none none none notes =
          newNote tId tCreated none none none :: notes ∧
        (newNote tId tCreated none none none).selectedText = none ∧
        (newNote tId tCreated none none none).selectionStart = none ∧
        (newNote tId tCreated none none none).selectionEnd = none ∧
        anchorConsistent (newNote tId tCreated none none none)) ∧
      (sel ≠ "" →
        createNoteFromSelection sel true cs ce tId tCreated notes =
          newNote tId tCreated (some sel) (some cs) (some ce) :: notes ∧
        (newNote tId tCreated (some sel) (some cs) (some ce)).selectedText =
          some sel ∧
        (newNote tId tCreated (some sel) (some cs) (some ce)).selectionStart =
          some cs ∧
        (newNote tId tCreated (some sel) (some cs) (some ce)).selectionEnd =
          some ce ∧
        anchorConsistent (newNote tId tCreated (some sel) (some cs) (some ce))) := by
  intro tId tCreated notes sel cs ce
  refine ⟨⟨rfl, rfl, rfl, rfl, Or.inl ⟨rfl, rfl, rfl⟩⟩, ?_⟩
  intro hsel
  refine ⟨?_, rfl, rfl, rfl, Or.inr ⟨?_, ?_, ?_⟩⟩
  · rw [createNoteFromSelection, if_neg hsel]
    rfl
  · simp [newNote]
  · simp [newNote]
  · simp [newNote]

/-- C6 witness: both creation paths evaluated on concrete inputs. -/
theorem claim_C6_anchor_all_or_nothing_witness :
    (createNewNote 7 7 none none none [] =
        newNote 7 7 none none none :: [] ∧
      (newNote 7 7 none none none).selectedText = none ∧
      (newNote 7 7 none none none).selectionStart = none ∧
      (newNote 7 7 none none none).selectionEnd = none ∧
      anchorConsistent (newNote 7 7 none none none)) ∧
    (createNoteFromSelection "Hello" true { line := 0, ch := 0 }
        { line := 0, ch := 5 } 7 7 [] =
      newNote 7 7 (some "Hello") (some { line := 0, ch := 0 })
          (some { line := 0, ch := 5 }) :: [] ∧
      (newNote 7 7 (some "Hello") (some { line := 0, ch := 0 })
          (some { line := 0, ch := 5 })).selectedText = some "Hello" ∧
      (newNote 7 7 (some "Hello") (some { line := 0, ch := 0 })
          (some { line := 0, ch := 5 })).selectionStart =
        some { line := 0, ch := 0 } ∧
      (newNote 7 7 (some "Hello") (some { line := 0, ch := 0 })
          (some { line := 0, ch := 5 })).selectionEnd =
        some { line := 0, ch := 5 } ∧
      anchorConsistent (newNote 7 7 (some "Hello") (some { line := 0, ch := 0 })
          (some { line := 0, ch := 5 }))) :=
  ⟨(claim_C6_anchor_all_or_nothing 7 7 [] "Hello" { line := 0, ch := 0 }
      { line := 0, ch := 5 }).1,
   (claim_C6_anchor_all_or_nothing 7 7 [] "Hello" { line := 0, ch := 0 }
      { line := 0, ch := 5 }).2 (by decide)⟩

/-- C7 counterexample: two creations in the same millisecond assign the same
time-derived id, so the new note's id is not distinct from the ids already
in the working set. -/
theorem claim_C7_counterexample :
    (createNewNote 5 6 none none none
        (createNewNote 5 5 none none none [])).map Note.id = ["5", "5"] ∧
      ¬ (newNote 5 6 none none none).id ∉
          (createNewNote 5 5 none none none []).map Note.id := by
  decide

/-- C7 amended: a newly created note's id is distinct from every id already
in the working set exactly when the decimal string of the creation
timestamp is not already an id in the set; two creations in the same
millisecond violate it. -/
theorem claim_C7_fresh_id :
    ∀ (tId tCreated : Nat) (st : Option String) (ss se : Option Pos)
      (notes : List Note),
      Nat.repr tId ∉ notes.map Note.id →
      createNewNote tId tCreated st ss se notes =
          newNote tId tCreated st ss se :: notes ∧
        ∀ n ∈ notes, (newNote tId tCreated st ss se).id ≠ n.id := by
  intro tId tCreated st ss se notes h
  refine ⟨rfl, ?_⟩
  intro n hn heq
  refine h ?_
  rw [show Nat.repr tId = n.id from heq]
  exact List.mem_map_of_mem Note.id hn

/-- C7 witness: a creation at millisecond 6 over a working set whose only id
is "5". -/
theorem claim_C7_fresh_id_witness :
    createNewNote 6 6 none none none [cDup1] =
        newNote 6 6 none none none :: [cDup1] ∧
      ∀ n ∈ [cDup1], (newNote 6 6 none none none).id ≠ n.id :=
  claim_C7_fresh_id 6 6 none none none [cDup1] (by decide)

/-- C3 counterexample: refreshing a two-note working set and then editing
the rear note bumps its createdAt past the front note without re-sorting,
so the working set is no longer non-increasing in createdAt. -/
theorem claim_C3_counterexample :
    ¬ sortedDesc
        (applyOps [ViewOp.refreshOp (some [cNoteA, cNoteB]),
          ViewOp.editOp 1 "x" 20] []) := by
  decide

/-- C3 amended: after any sequence of refreshes, deletes, and creates whose
creation time is at least every createdAt in the working set (true of a
monotone wall clock), the working set is non-increasing in createdAt; an
edit bumps the edited note's createdAt in place without re-sorting and can
break the order until the next refresh. -/
theorem claim_C3_sorted_after_safe_ops :
    ∀ (ops : List ViewOp) (notes : List Note),
      sortedDesc notes → safeTrace ops notes = true →
      sortedDesc (applyOps ops notes) := by
  intro ops
  induction ops with
  | nil =>
    intro notes hs _
    exact hs
  | cons op rest ih =>
    intro notes hs hsafe
    rw [safeTrace, Bool.and_eq_true] at hsafe
    obtain ⟨h1, h2⟩ := hsafe
    refine ih (stepView op notes) ?_ h2
    cases op with
    | refreshOp loaded =>
      cases loaded with
      | none => exact List.Pairwise.nil
      | some ns => exact sortNotes_sorted ns
    | createOp tId tCreated st ss se =>
      rw [orderSafe, List.all_eq_true] at h1
      refine List.pairwise_cons.mpr ⟨?_, hs⟩
      intro b hb
      exact of_decide_eq_true (h1 b hb)
    | editOp i value now =>
      exact absurd h1 (by simp [orderSafe])
    | deleteOp nid =>
      exact List.Pairwise.sublist (List.filter_sublist notes) hs

/-- C3 witness: a concrete safe trace of a refresh, a later create, and a
delete, evaluated from the empty working set. -/
theorem claim_C3_sorted_after_safe_ops_witness :
    sortedDesc
      (applyOps [ViewOp.refreshOp (some [cNoteB, cNoteA]),
        ViewOp.createOp 20 20 none none none, ViewOp.deleteOp "a"] []) :=
  claim_C3_sorted_after_safe_ops
    [ViewOp.refreshOp (some [cNoteB, cNoteA]),
      ViewOp.createOp 20 20 none none none, ViewOp.deleteOp "a"] []
    (by decide) (by decide)
